import Mathlib

/-!
Shallow embedding of the turn-based-game movement/state core:
`src/turn-based-game/src/lib/gameState.ts` (the `GameState` class) and the
API route handlers (multi-move, use-pc, events/broadcast).  Coordinates are
integers; tile grids are lists of rows of characters; the mutable singleton
store is threaded explicitly as a `GameState` value.  Fallible handlers
return a response value together with the post-state and the list of
snapshots broadcast during the call.
-/

/-- A grid coordinate, `{x, y}` in the source (`gameTypes.ts`). -/
structure Position where
  x : Int
  y : Int
deriving DecidableEq, Repr

/-- `LevelData` from `gameState.ts`: grid size, starting position(s),
legend (informational only, omitted), and the row-major layout.  A layout
row (a JS string) is embedded as its list of characters. -/
structure LevelData where
  width : Int
  height : Int
  starting_position : Position
  starting_position_2 : Option Position
  layout : List (List Char)
deriving DecidableEq, Repr

/-- The `ActionType` string union from `gameTypes.ts`, as a closed
enumeration: `multi_move[left|right|up|down]`, `use_pc`, `use_button`. -/
inductive ActionType where
  | multiMoveLeft
  | multiMoveRight
  | multiMoveUp
  | multiMoveDown
  | usePc
  | useButton
deriving DecidableEq, Repr

/-- The mutable singleton `GameState` (fields `agents`, `activeAgent`,
`currentLevel`, `bridgesActivated`).  A roster slot is `Option Position`
because a JS array grown past its former end contains holes (`undefined`);
see `jsArraySet`. -/
structure GameState where
  agents : List (Option Position)
  activeAgent : Int
  currentLevel : LevelData
  bridgesActivated : Bool
deriving DecidableEq, Repr

/-- JS array element assignment `a[i] = v` on the agents array:
an index inside the array replaces the slot; an index past the end grows
the array to length `i+1`, filling the gap with holes; a negative index
becomes a non-index object property, leaving the array's indexed entries
(and `length`) unchanged. -/
def jsArraySet (a : List (Option Position)) (i : Int) (v : Position) :
    List (Option Position) :=
  if i < 0 then a
  else if i.toNat < a.length then a.set i.toNat (some v)
  else a ++ List.replicate (i.toNat - a.length) none ++ [some v]

/-- `getPosition(agentIndex?)`: defaults to the active agent; an
out-of-range index yields the origin.  A hole read (possible only after an
out-of-range `setPosition`) is also mapped to the origin; the source then
returns a spread of `undefined`, i.e. a position with no coordinates, which
no caller distinguishes from any other fixed value. -/
def GameState.getPosition (s : GameState) (agentIndex : Option Int) : Position :=
  let index := agentIndex.getD s.activeAgent
  if index < 0 ∨ (s.agents.length : Int) ≤ index then ⟨0, 0⟩
  else
    match s.agents.getD index.toNat none with
    | some p => p
    | none => ⟨0, 0⟩

/-- `setPosition(newPosition, agentIndex?)`: unguarded JS element
assignment into the agents array (see `jsArraySet`). -/
def GameState.setPosition (s : GameState) (newPosition : Position)
    (agentIndex : Option Int) : GameState :=
  let index := agentIndex.getD s.activeAgent
  { s with agents := jsArraySet s.agents index newPosition }

/-- `getAllAgentPositions()`: a fresh copy of the roster (value-identical
here). -/
def GameState.getAllAgentPositions (s : GameState) : List (Option Position) :=
  s.agents

/-- `setActiveAgent(index)`: silently ignored when out of bounds. -/
def GameState.setActiveAgent (s : GameState) (index : Int) : GameState :=
  if 0 ≤ index ∧ index < (s.agents.length : Int) then
    { s with activeAgent := index }
  else s

def GameState.getActiveAgent (s : GameState) : Int :=
  s.activeAgent

def GameState.getAgentCount (s : GameState) : Int :=
  (s.agents.length : Int)

/-- `setCurrentLevel(levelData)`: replaces the level, rebuilds the roster
from the starting position(s), resets the active agent and the bridge
flag. -/
def GameState.setCurrentLevel (s : GameState) (levelData : LevelData) : GameState :=
  { s with
    currentLevel := levelData
    agents :=
      [some levelData.starting_position] ++
        (match levelData.starting_position_2 with
         | some p => [some p]
         | none => [])
    activeAgent := 0
    bridgesActivated := false }

def GameState.getCurrentLevel (s : GameState) : LevelData :=
  s.currentLevel

/-- `getTileAt(x, y)`: out-of-bounds coordinates resolve to the background
symbol `'░'`.  An in-bounds access outside the stored layout (malformed
level) also yields `'░'` where JS yields `undefined`; both compare unequal
to every tile symbol. -/
def GameState.getTileAt (s : GameState) (x y : Int) : Char :=
  if x < 0 ∨ s.currentLevel.width ≤ x ∨ y < 0 ∨ s.currentLevel.height ≤ y then '░'
  else (s.currentLevel.layout.getD y.toNat []).getD x.toNat '░'

/-- `getEffectiveTileAt(x, y)`: applies the bridge override — a raw `'Z'`
reads as `'T'` once bridges are activated. -/
def GameState.getEffectiveTileAt (s : GameState) (x y : Int) : Char :=
  let originalTile := s.getTileAt x y
  if s.bridgesActivated ∧ originalTile = 'Z' then 'T'
  else originalTile

def GameState.areBridgesActivated (s : GameState) : Bool :=
  s.bridgesActivated

/-- `activateBridges()`: one-way flag set. -/
def GameState.activateBridges (s : GameState) : GameState :=
  { s with bridgesActivated := true }

def GameState.resetBridges (s : GameState) : GameState :=
  { s with bridgesActivated := false }

/-- `getAvailableActions()`: the advisory action list for the active
agent's position.  The sequence of `push` calls is embedded as the
concatenation of conditional singletons, preserving order. -/
def GameState.getAvailableActions (s : GameState) : List ActionType :=
  let p := s.getPosition none
  let currentTile := s.getTileAt p.x p.y
  let groundTile := s.getTileAt p.x (p.y + 1)
  let leftGroundTile := s.getTileAt (p.x - 1) (p.y + 1)
  let rightGroundTile := s.getTileAt (p.x + 1) (p.y + 1)
  let leftTile := s.getTileAt (p.x - 1) p.y
  let rightTile := s.getTileAt (p.x + 1) p.y
  let upTile := s.getTileAt p.x (p.y - 1)
  let downTile := s.getTileAt p.x (p.y + 1)
  (if leftGroundTile = '#' then [ActionType.multiMoveLeft] else []) ++
  (if rightGroundTile = '#' then [ActionType.multiMoveRight] else []) ++
  (if currentTile = '|' then [ActionType.multiMoveUp] else []) ++
  (if groundTile = '|' then [ActionType.multiMoveDown] else []) ++
  (if currentTile = 'C' ∨ leftTile = 'C' ∨ rightTile = 'C' ∨ upTile = 'C' ∨
      downTile = 'C' then [ActionType.usePc] else []) ++
  (if currentTile = 'B' ∨ leftTile = 'B' ∨ rightTile = 'B' ∨ upTile = 'B' ∨
      downTile = 'B' then [ActionType.useButton] else [])

/-- Result record of the movement validator (`{canMove, reason?}`). -/
structure MoveCheck where
  canMove : Bool
  reason : Option String
deriving DecidableEq, Repr

/-- Spec-side generalisation of the movement validator, with the from-cell
an explicit parameter ("`canMove(level, puzzleFlag, from, to)`" in the
design document).  The body below `fromPos` is the literal translation of
`canMoveToPosition`. -/
def specCanMove (s : GameState) (fromPos toPos : Position) : MoveCheck :=
  if toPos.x < 0 ∨ s.currentLevel.width ≤ toPos.x ∨ toPos.y < 0 ∨
      s.currentLevel.height ≤ toPos.y then
    ⟨false, some ("Out of bounds")⟩
  else
    let currentTile := s.getEffectiveTileAt fromPos.x fromPos.y
    let targetTile := s.getEffectiveTileAt toPos.x toPos.y
    let targetGroundTile := s.getEffectiveTileAt toPos.x (toPos.y + 1)
    let currentGroundTile := s.getEffectiveTileAt fromPos.x (fromPos.y + 1)
    if targetTile = '#' ∨ targetTile = 'Z' then
      ⟨false, some ("Cannot move through wall/raised bridge")⟩
    else if fromPos.y = toPos.y then
      if targetGroundTile ≠ '#' ∧ targetGroundTile ≠ '|' ∧ targetGroundTile ≠ 'T' then
        ⟨false, some ("No platform under target position")⟩
      else ⟨true, none⟩
    else if fromPos.x = toPos.x then
      if toPos.y < fromPos.y then
        if currentTile ≠ '|' then
          ⟨false, some ("Must be on ladder to move up")⟩
        else ⟨true, none⟩
      else if fromPos.y < toPos.y then
        if currentGroundTile ≠ '|' then
          ⟨false, some ("No ladder under current position to move down")⟩
        else ⟨true, none⟩
      else ⟨false, some ("Invalid movement direction")⟩
    else ⟨false, some ("Invalid movement direction")⟩

/-- `canMoveToPosition(to)`: the source reads the from-cell as
`this.getPosition()` — the ACTIVE agent's position. -/
def GameState.canMoveToPosition (s : GameState) (toPos : Position) : MoveCheck :=
  let fromPos := s.getPosition none
  if toPos.x < 0 ∨ s.currentLevel.width ≤ toPos.x ∨ toPos.y < 0 ∨
      s.currentLevel.height ≤ toPos.y then
    ⟨false, some ("Out of bounds")⟩
  else
    let currentTile := s.getEffectiveTileAt fromPos.x fromPos.y
    let targetTile := s.getEffectiveTileAt toPos.x toPos.y
    let targetGroundTile := s.getEffectiveTileAt toPos.x (toPos.y + 1)
    let currentGroundTile := s.getEffectiveTileAt fromPos.x (fromPos.y + 1)
    if targetTile = '#' ∨ targetTile = 'Z' then
      ⟨false, some ("Cannot move through wall/raised bridge")⟩
    else if fromPos.y = toPos.y then
      if targetGroundTile ≠ '#' ∧ targetGroundTile ≠ '|' ∧ targetGroundTile ≠ 'T' then
        ⟨false, some ("No platform under target position")⟩
      else ⟨true, none⟩
    else if fromPos.x = toPos.x then
      if toPos.y < fromPos.y then
        if currentTile ≠ '|' then
          ⟨false, some ("Must be on ladder to move up")⟩
        else ⟨true, none⟩
      else if fromPos.y < toPos.y then
        if currentGroundTile ≠ '|' then
          ⟨false, some ("No ladder under current position to move down")⟩
        else ⟨true, none⟩
      else ⟨false, some ("Invalid movement direction")⟩
    else ⟨false, some ("Invalid movement direction")⟩

/-- Result record of `canUseComputer` / `canUseButton` (`{canUse, reason?}`). -/
structure UseCheck where
  canUse : Bool
  reason : Option String
deriving DecidableEq, Repr

/-- `canUseComputer()`: the active agent stands on or orthogonally next to
a `'C'` tile (raw tiles; the bridge override never produces `'C'`). -/
def GameState.canUseComputer (s : GameState) : UseCheck :=
  let p := s.getPosition none
  let currentTile := s.getTileAt p.x p.y
  if currentTile = 'C' then ⟨true, none⟩
  else
    let leftTile := s.getTileAt (p.x - 1) p.y
    let rightTile := s.getTileAt (p.x + 1) p.y
    let upTile := s.getTileAt p.x (p.y - 1)
    let downTile := s.getTileAt p.x (p.y + 1)
    if leftTile = 'C' ∨ rightTile = 'C' ∨ upTile = 'C' ∨ downTile = 'C' then
      ⟨true, none⟩
    else ⟨false, some ("No computer nearby")⟩

/-- `canUseButton()`: same adjacency rule for the `'B'` switch tile. -/
def GameState.canUseButton (s : GameState) : UseCheck :=
  let p := s.getPosition none
  let currentTile := s.getTileAt p.x p.y
  if currentTile = 'B' then ⟨true, none⟩
  else
    let leftTile := s.getTileAt (p.x - 1) p.y
    let rightTile := s.getTileAt (p.x + 1) p.y
    let upTile := s.getTileAt p.x (p.y - 1)
    let downTile := s.getTileAt p.x (p.y + 1)
    if leftTile = 'B' ∨ rightTile = 'B' ∨ upTile = 'B' ∨ downTile = 'B' then
      ⟨true, none⟩
    else ⟨false, some ("No button nearby")⟩

/-- One snapshot pushed on the SSE broadcast channel
(`broadcastPositionUpdate` in `agent/events/route.ts`); the wall-clock
`timestamp` field is outside the embedding. -/
structure Snapshot where
  agents : List (Option Position)
  activeAgent : Int
  agentCount : Int
  position : Position
  bridgesActivated : Bool
  map : List (List Char)
deriving DecidableEq, Repr

/-- The snapshot `broadcastPositionUpdate` serialises: note `map` is the
RAW stored layout, `gameState.getCurrentLevel().layout`. -/
def broadcastSnapshot (s : GameState) : Snapshot :=
  { agents := s.getAllAgentPositions
    activeAgent := s.getActiveAgent
    agentCount := s.getAgentCount
    position := s.getPosition none
    bridgesActivated := s.areBridgesActivated
    map := s.getCurrentLevel.layout }

/-- Spec-side definition, following the design document's words for the
snapshot `map` field ("effective layout rows"): the stored layout with the
bridge override applied to every cell. -/
def specEffectiveLayoutRows (s : GameState) : List (List Char) :=
  (List.range s.currentLevel.layout.length).map fun (y : Nat) =>
    (List.range ((s.currentLevel.layout.getD y []).length)).map fun (x : Nat) =>
      s.getEffectiveTileAt x y

/-- The layout invariant stated in the design document: as many rows as
`height`, every row as long as `width`. -/
def LevelData.wellFormed (L : LevelData) : Prop :=
  (L.layout.length : Int) = L.height ∧ ∀ r ∈ L.layout, (r.length : Int) = L.width

instance (L : LevelData) : Decidable L.wellFormed := by
  unfold LevelData.wellFormed; infer_instance

/-- One entry of the multi-move response's `steps` array
(`MoveStepResult` in `gameTypes.ts`); `reason` is present only on failure,
`level_completed` only on success. -/
structure MoveStepResult where
  result : Bool
  available_actions : List ActionType
  reason : Option String
  position : Position
  level_completed : Option Bool
deriving DecidableEq, Repr

/-- Everything the per-step loop of the multi-move handler produces:
the `stepResults` array, the running `currentPos` and `levelCompleted`
variables, the mutated store, and the snapshots broadcast along the way. -/
structure MultiMoveOutcome where
  steps : List MoveStepResult
  final_position : Position
  level_completed : Bool
  state : GameState
  broadcasts : List Snapshot
deriving DecidableEq, Repr

/-- The `directionMap` table of the multi-move handler. -/
def directionMap (direction : String) : Option Position :=
  if direction = ("left" : String) then some ⟨-1, 0⟩
  else if direction = ("right" : String) then some ⟨1, 0⟩
  else if direction = ("up" : String) then some ⟨0, -1⟩
  else if direction = ("down" : String) then some ⟨0, 1⟩
  else none

/-- The `for (let i = 0; i < steps; i++)` loop of the multi-move handler:
validate the candidate cell with `canMoveToPosition`, on success commit via
`setPosition(_, agentIndex)`, broadcast, record the step (stopping if the
entered effective tile is `'C'`), on failure record the rejection and stop. -/
def multiMoveLoop : Nat → GameState → Position → Int → Position → MultiMoveOutcome
  | 0, s, _, _, currentPos =>
      { steps := [], final_position := currentPos, level_completed := false
        state := s, broadcasts := [] }
  | n + 1, s, delta, agentIndex, currentPos =>
      let nextPos : Position := ⟨currentPos.x + delta.x, currentPos.y + delta.y⟩
      let moveCheck := s.canMoveToPosition nextPos
      if moveCheck.canMove then
        let s1 := s.setPosition nextPos (some agentIndex)
        let snap := broadcastSnapshot s1
        let targetTile := s1.getEffectiveTileAt nextPos.x nextPos.y
        if targetTile = 'C' then
          { steps := [⟨true, s1.getAvailableActions, none, nextPos, some true⟩]
            final_position := nextPos, level_completed := true
            state := s1, broadcasts := [snap] }
        else
          let rest := multiMoveLoop n s1 delta agentIndex nextPos
          { steps := ⟨true, s1.getAvailableActions, none, nextPos, some false⟩ :: rest.steps
            final_position := rest.final_position
            level_completed := rest.level_completed
            state := rest.state
            broadcasts := snap :: rest.broadcasts }
      else
        { steps := [⟨false, s.getAvailableActions, moveCheck.reason, currentPos, none⟩]
          final_position := currentPos, level_completed := false
          state := s, broadcasts := [] }

/-- Response of the multi-move POST handler: a 400 error, or the
success payload `{steps, final_position, level_completed}`. -/
inductive MoveResponse where
  | error (msg : String)
  | ok (steps : List MoveStepResult) (final_position : Position)
      (level_completed : Bool)
deriving DecidableEq, Repr

/-- The `steps` array of a success response (empty for an error). -/
def MoveResponse.stepsOf : MoveResponse → List MoveStepResult
  | .error _ => []
  | .ok st _ _ => st

/-- The `final_position` of a success response. -/
def MoveResponse.finalPositionOf : MoveResponse → Option Position
  | .error _ => none
  | .ok _ p _ => some p

/-- Whether the response is a 400 error. -/
def MoveResponse.isError : MoveResponse → Bool
  | .error _ => true
  | .ok _ _ _ => false

/-- The multi-move POST handler.  Guards in source order: the falsy/range
check on `direction`/`steps`, then the `agentIndex` bounds check, then the
`directionMap` lookup (an unknown non-empty direction makes the first use
of `delta` throw a TypeError inside the loop — before any mutation or
broadcast — which the catch block turns into a 400; embedded as the
`none` branch of the lookup).  Returns the response, the post-state and the
broadcasts emitted. -/
def POST_move (s : GameState) (direction : String) (steps : Int)
    (agentIndex : Int) : MoveResponse × GameState × List Snapshot :=
  if direction = ("" : String) ∨ steps < 1 ∨ 10 < steps then
    (MoveResponse.error ("Invalid request. Need direction and steps (1-10)"), s, [])
  else if agentIndex < 0 ∨ s.getAgentCount ≤ agentIndex then
    (MoveResponse.error
      (("Invalid agent index. Must be between 0 and " : String) ++
        toString (s.getAgentCount - 1)), s, [])
  else
    match directionMap direction with
    | none => (MoveResponse.error ("Invalid request body"), s, [])
    | some delta =>
        let out := multiMoveLoop steps.toNat s delta agentIndex
          (s.getPosition (some agentIndex))
        (MoveResponse.ok out.steps out.final_position out.level_completed,
          out.state, out.broadcasts)

/-- Spec-side per-step loop: identical to `multiMoveLoop` except that the
validator judges the candidate step from the moved (requested) agent's
running position, as the design document's orchestrator algorithm reads
("starting from the agent's current position … call the Movement
Validator"). -/
def specMultiMoveLoop : Nat → GameState → Position → Int → Position → MultiMoveOutcome
  | 0, s, _, _, currentPos =>
      { steps := [], final_position := currentPos, level_completed := false
        state := s, broadcasts := [] }
  | n + 1, s, delta, agentIndex, currentPos =>
      let nextPos : Position := ⟨currentPos.x + delta.x, currentPos.y + delta.y⟩
      let moveCheck := specCanMove s currentPos nextPos
      if moveCheck.canMove then
        let s1 := s.setPosition nextPos (some agentIndex)
        let snap := broadcastSnapshot s1
        let targetTile := s1.getEffectiveTileAt nextPos.x nextPos.y
        if targetTile = 'C' then
          { steps := [⟨true, s1.getAvailableActions, none, nextPos, some true⟩]
            final_position := nextPos, level_completed := true
            state := s1, broadcasts := [snap] }
        else
          let rest := specMultiMoveLoop n s1 delta agentIndex nextPos
          { steps := ⟨true, s1.getAvailableActions, none, nextPos, some false⟩ :: rest.steps
            final_position := rest.final_position
            level_completed := rest.level_completed
            state := rest.state
            broadcasts := snap :: rest.broadcasts }
      else
        { steps := [⟨false, s.getAvailableActions, moveCheck.reason, currentPos, none⟩]
          final_position := currentPos, level_completed := false
          state := s, broadcasts := [] }

/-- Spec-side multi-move handler: `POST_move` with `specMultiMoveLoop`. -/
def specPOST_move (s : GameState) (direction : String) (steps : Int)
    (agentIndex : Int) : MoveResponse × GameState × List Snapshot :=
  if direction = ("" : String) ∨ steps < 1 ∨ 10 < steps then
    (MoveResponse.error ("Invalid request. Need direction and steps (1-10)"), s, [])
  else if agentIndex < 0 ∨ s.getAgentCount ≤ agentIndex then
    (MoveResponse.error
      (("Invalid agent index. Must be between 0 and " : String) ++
        toString (s.getAgentCount - 1)), s, [])
  else
    match directionMap direction with
    | none => (MoveResponse.error ("Invalid request body"), s, [])
    | some delta =>
        let out := specMultiMoveLoop steps.toNat s delta agentIndex
          (s.getPosition (some agentIndex))
        (MoveResponse.ok out.steps out.final_position out.level_completed,
          out.state, out.broadcasts)

/-- Response of the use-pc POST handler. -/
inductive UsePcResponse where
  | error (msg : String)
  | ok (position : Position)
deriving DecidableEq, Repr

/-- Whether the use-pc response reports success. -/
def UsePcResponse.isOk : UsePcResponse → Bool
  | .error _ => false
  | .ok _ => true

/-- The use-pc POST handler (`character/use-pc/route.ts`): checks
`canUseComputer`, then reports success (with the unchanged position) or a
400 — it performs no store mutation and no broadcast in either branch. -/
def POST_usePC (s : GameState) : UsePcResponse × GameState × List Snapshot :=
  let computerCheck := s.canUseComputer
  if !computerCheck.canUse then
    (UsePcResponse.error (computerCheck.reason.getD ("Cannot use computer")), s, [])
  else
    (UsePcResponse.ok (s.getPosition none), s, [])

/-- The degenerate boundary-test level: 5×3, rows `#####`, `#C#.#`, `#####`. -/
def levelDegenerate : LevelData :=
  { width := 5, height := 3
    starting_position := ⟨3, 1⟩
    starting_position_2 := none
    layout := ["#####".data, "#C#.#".data, "#####".data] }

/-- Store holding `levelDegenerate` with its single agent at the `'.'`
cell (3,1). -/
def stateDegenerate : GameState :=
  { agents := [some ⟨3, 1⟩], activeAgent := 0
    currentLevel := levelDegenerate, bridgesActivated := false }

/-- Two-agent level: agent 0 stands on the ladder at (3,3), agent 1 on the
background at (3,1). -/
def levelTwoAgents : LevelData :=
  { width := 5, height := 4
    starting_position := ⟨3, 3⟩
    starting_position_2 := some ⟨3, 1⟩
    layout := ["░░░░░".data, "░░░░░".data, "░░░░░".data, "░░░|░".data] }

def stateTwoAgents : GameState :=
  { agents := [some ⟨3, 3⟩, some ⟨3, 1⟩], activeAgent := 0
    currentLevel := levelTwoAgents, bridgesActivated := false }

/-- Open corridor over a full platform row; agent at (1,1). -/
def levelCorridor : LevelData :=
  { width := 5, height := 3
    starting_position := ⟨1, 1⟩
    starting_position_2 := none
    layout := ["░░░░░".data, "░░░░░".data, "#####".data] }

def stateCorridor : GameState :=
  { agents := [some ⟨1, 1⟩], activeAgent := 0
    currentLevel := levelCorridor, bridgesActivated := false }

/-- One-row level containing a raised bridge cell. -/
def levelBridge : LevelData :=
  { width := 3, height := 1
    starting_position := ⟨0, 0⟩
    starting_position_2 := none
    layout := ["░Z░".data] }

/-- Store with the bridge level and the puzzle flag already raised. -/
def stateBridgeActive : GameState :=
  { agents := [some ⟨0, 0⟩], activeAgent := 0
    currentLevel := levelBridge, bridgesActivated := true }

/-- Agent at (1,1); the cell diagonally below-right (2,2) is a ladder, so a
step right is supported for the validator but not platform-supported for the
action list. -/
def levelLadderSupport : LevelData :=
  { width := 5, height := 3
    starting_position := ⟨1, 1⟩
    starting_position_2 := none
    layout := ["░░░░░".data, "░░░░░".data, "░#|░░".data] }

def stateLadderSupport : GameState :=
  { agents := [some ⟨1, 1⟩], activeAgent := 0
    currentLevel := levelLadderSupport, bridgesActivated := false }

/-- Corridor that ends in a wall: from (1,1) two steps right are legal and
the third hits the `'#'` at (4,1). -/
def levelWallAfterTwo : LevelData :=
  { width := 6, height := 3
    starting_position := ⟨1, 1⟩
    starting_position_2 := none
    layout := ["░░░░░░".data, "░░░░#░".data, "######".data] }

def stateWallAfterTwo : GameState :=
  { agents := [some ⟨1, 1⟩], activeAgent := 0
    currentLevel := levelWallAfterTwo, bridgesActivated := false }

/-- Corridor where the second step right lands on the terminal `'C'` and
the third would hit a wall. -/
def levelTerminalAfterTwo : LevelData :=
  { width := 6, height := 3
    starting_position := ⟨0, 1⟩
    starting_position_2 := none
    layout := ["░░░░░░".data, "░░C#░░".data, "######".data] }

def stateTerminalAfterTwo : GameState :=
  { agents := [some ⟨0, 1⟩], activeAgent := 0
    currentLevel := levelTerminalAfterTwo, bridgesActivated := false }

/-- C1: the multi-move handler moves the requested agent but validates the
step against the ACTIVE agent's position.  At `stateTwoAgents` (agent 0 on
the ladder at (3,3), agent 1 on background at (3,1), active agent 0), the
request `direction="up", steps=1, agentIndex=1` commits agent 1 to (3,0)
even though the validator, judged from agent 1's own position, rejects the
step with "Must be on ladder to move up". -/
theorem C1_validator_uses_active_agent :
    specCanMove stateTwoAgents ⟨3, 1⟩ ⟨3, 0⟩ =
      ⟨false, some ("Must be on ladder to move up")⟩ ∧
    (POST_move stateTwoAgents ("up") 1 1).1.stepsOf.map (fun st => st.result) =
      [true] ∧
    (POST_move stateTwoAgents ("up") 1 1).2.1.getPosition (some 1) = ⟨3, 0⟩ ∧
    (POST_move stateTwoAgents ("up") 1 1).1 ≠
      (specPOST_move stateTwoAgents ("up") 1 1).1 := by
  decide

/-- C2 counterexample: at `stateCorridor` the active agent stands at (1,1)
and the offset to (3,1) is (2,0) — neither a unit horizontal nor a unit
vertical step — yet the validator ALLOWS the move instead of rejecting it
with "Invalid movement direction". -/
theorem C2_multicell_allowed_counterexample :
    stateCorridor.getPosition none = ⟨1, 1⟩ ∧
    (⟨3, 1⟩ : Position).x - (stateCorridor.getPosition none).x = 2 ∧
    stateCorridor.canMoveToPosition ⟨3, 1⟩ = ⟨true, none⟩ := by
  decide

/-- C3 counterexample: on the degenerate 5×3 level the up-move from the
non-ladder tile (3,1) is rejected, but with reason "Cannot move through
wall/raised bridge" (the wall check at (3,0) fires first), not the claimed
"Must be on ladder to move up". -/
theorem C3_reason_counterexample :
    (POST_move stateDegenerate ("up") 1 0).1.stepsOf.map (fun st => st.reason) =
      [some ("Cannot move through wall/raised bridge")] ∧
    (POST_move stateDegenerate ("up") 1 0).1.stepsOf.map (fun st => st.reason) ≠
      [some ("Must be on ladder to move up")] := by
  decide

/-- C3 (amended): the degenerate-level up-move request returns a single
step outcome with `result = false`, reason "Cannot move through wall/raised
bridge", the unchanged position (3,1) as both step position and
final_position, an unchanged store and no broadcast. -/
theorem C3_degenerate_up_move :
    (POST_move stateDegenerate ("up") 1 0).1.stepsOf.map
        (fun st => (st.result, st.reason, st.position)) =
      [(false, some ("Cannot move through wall/raised bridge"), ⟨3, 1⟩)] ∧
    (POST_move stateDegenerate ("up") 1 0).1.finalPositionOf = some ⟨3, 1⟩ ∧
    (POST_move stateDegenerate ("up") 1 0).2.1 = stateDegenerate ∧
    (POST_move stateDegenerate ("up") 1 0).2.2 = [] := by
  decide

/-- C4 counterexample: with bridges activated over a layout containing a
raised bridge `'Z'`, the broadcast snapshot's `map` field is NOT the
effective layout rows (the `'Z'` cell is sent raw, not as `'T'`). -/
theorem C4_raw_map_counterexample :
    stateBridgeActive.bridgesActivated = true ∧
    (broadcastSnapshot stateBridgeActive).map ≠
      specEffectiveLayoutRows stateBridgeActive := by
  decide

/-- C5 counterexample: at `stateLadderSupport` the agent stands at the
in-bounds cell (1,1); the one-step move right to (2,1) is allowed by the
Movement Validator (a ladder lies under the target), yet
`multi_move[right]` is NOT in the available actions (which demand a
platform `'#'` below-right). -/
theorem C5_drift_counterexample :
    stateLadderSupport.getPosition none = ⟨1, 1⟩ ∧
    (stateLadderSupport.canMoveToPosition ⟨2, 1⟩).canMove = true ∧
    ActionType.multiMoveRight ∉ stateLadderSupport.getAvailableActions := by
  decide

/-- C6 counterexample: `setPosition` with agent index 2 on a one-agent
roster grows the roster to length 3 (JS array assignment past the end). -/
theorem C6_grow_counterexample :
    stateCorridor.agents.length = 1 ∧
    (stateCorridor.setPosition ⟨0, 0⟩ (some 2)).agents.length = 3 := by
  decide

/-- C7 counterexample: at `stateTerminalAfterTwo` two consecutive right
steps are legal (the second lands on the terminal `'C'`), the third step is
illegal (wall), yet `multiMove` with `steps = 5` returns only 2 step
results, not 3 — the terminal stop breaks the batch before the failing
step is recorded. -/
theorem C7_terminal_stop_counterexample :
    (stateTerminalAfterTwo.canMoveToPosition ⟨1, 1⟩).canMove = true ∧
    ((stateTerminalAfterTwo.setPosition ⟨1, 1⟩ (some 0)).canMoveToPosition
        ⟨2, 1⟩).canMove = true ∧
    (((stateTerminalAfterTwo.setPosition ⟨1, 1⟩ (some 0)).setPosition ⟨2, 1⟩
        (some 0)).canMoveToPosition ⟨3, 1⟩).canMove = false ∧
    (POST_move stateTerminalAfterTwo ("right") 5 0).1.stepsOf.length = 2 := by
  decide

/-- The success bit of `canUseComputer` holds exactly on the 5-cell
adjacency to a raw `'C'` tile. -/
theorem canUseComputer_canUse_iff (s : GameState) :
    s.canUseComputer.canUse = true ↔
      (s.getTileAt (s.getPosition none).x (s.getPosition none).y = 'C' ∨
       s.getTileAt ((s.getPosition none).x - 1) (s.getPosition none).y = 'C' ∨
       s.getTileAt ((s.getPosition none).x + 1) (s.getPosition none).y = 'C' ∨
       s.getTileAt (s.getPosition none).x ((s.getPosition none).y - 1) = 'C' ∨
       s.getTileAt (s.getPosition none).x ((s.getPosition none).y + 1) = 'C') := by
  unfold GameState.canUseComputer
  dsimp only
  split_ifs with hcur hadj <;> simp_all

/-- C9: the effective-tile resolver (a) maps any out-of-bounds coordinate
to the background symbol `'░'`, (b) maps a raw `'Z'` to `'T'` when the
puzzle flag is set, and (c) otherwise returns the raw symbol unchanged. -/
theorem C9_effective_tile (s : GameState) (x y : Int) :
    ((x < 0 ∨ s.currentLevel.width ≤ x ∨ y < 0 ∨ s.currentLevel.height ≤ y) →
      s.getEffectiveTileAt x y = '░') ∧
    ((s.bridgesActivated = true ∧ s.getTileAt x y = 'Z') →
      s.getEffectiveTileAt x y = 'T') ∧
    (¬(s.bridgesActivated = true ∧ s.getTileAt x y = 'Z') →
      s.getEffectiveTileAt x y = s.getTileAt x y) := by
  refine ⟨fun h => ?_, fun h => ?_, fun h => ?_⟩
  · have hraw : s.getTileAt x y = '░' := by
      unfold GameState.getTileAt
      rw [if_pos h]
    unfold GameState.getEffectiveTileAt
    dsimp only
    rw [hraw]
    simp
  · unfold GameState.getEffectiveTileAt
    dsimp only
    simp [h.1, h.2]
  · unfold GameState.getEffectiveTileAt
    dsimp only
    rw [if_neg h]

/-- C9 witness: on `stateBridgeActive` (flag set, a `'Z'` at (1,0)):
the out-of-bounds case at (-1,0) resolves to `'░'`, the bridge case at
(1,0) resolves to `'T'`, and the unaffected cell (0,0) reads back raw. -/
theorem C9_effective_tile_witness :
    (((-1 : Int) < 0 ∨ stateBridgeActive.currentLevel.width ≤ -1 ∨ (0 : Int) < 0 ∨
        stateBridgeActive.currentLevel.height ≤ 0) ∧
      stateBridgeActive.getEffectiveTileAt (-1) 0 = '░') ∧
    ((stateBridgeActive.bridgesActivated = true ∧
        stateBridgeActive.getTileAt 1 0 = 'Z') ∧
      stateBridgeActive.getEffectiveTileAt 1 0 = 'T') ∧
    (¬(stateBridgeActive.bridgesActivated = true ∧
        stateBridgeActive.getTileAt 0 0 = 'Z') ∧
      stateBridgeActive.getEffectiveTileAt 0 0 = stateBridgeActive.getTileAt 0 0) :=
  ⟨⟨Or.inl (by decide),
      (C9_effective_tile stateBridgeActive (-1) 0).1 (Or.inl (by decide))⟩,
    ⟨⟨by decide, by decide⟩,
      (C9_effective_tile stateBridgeActive 1 0).2.1 ⟨by decide, by decide⟩⟩,
    ⟨by decide,
      (C9_effective_tile stateBridgeActive 0 0).2.2 (by decide)⟩⟩

/-- C10: `useTerminal` (the use-pc handler) succeeds iff the active agent's
tile or one of its 4 orthogonal neighbours is the terminal `'C'`; in both
branches the store is returned unchanged and nothing is broadcast, and a
repeated call re-reports the same outcome. -/
theorem C10_use_pc_frame (s : GameState) :
    ((POST_usePC s).1.isOk = true ↔
      (s.getTileAt (s.getPosition none).x (s.getPosition none).y = 'C' ∨
       s.getTileAt ((s.getPosition none).x - 1) (s.getPosition none).y = 'C' ∨
       s.getTileAt ((s.getPosition none).x + 1) (s.getPosition none).y = 'C' ∨
       s.getTileAt (s.getPosition none).x ((s.getPosition none).y - 1) = 'C' ∨
       s.getTileAt (s.getPosition none).x ((s.getPosition none).y + 1) = 'C')) ∧
    (POST_usePC s).2.1 = s ∧
    (POST_usePC s).2.2 = [] ∧
    (POST_usePC ((POST_usePC s).2.1)).1 = (POST_usePC s).1 := by
  have hstate : (POST_usePC s).2.1 = s := by
    unfold POST_usePC
    dsimp only
    split <;> rfl
  have hbc : (POST_usePC s).2.2 = [] := by
    unfold POST_usePC
    dsimp only
    split <;> rfl
  refine ⟨?_, hstate, hbc, by rw [hstate]⟩
  rw [← canUseComputer_canUse_iff]
  unfold POST_usePC
  dsimp only
  by_cases hc : s.canUseComputer.canUse = true
  · simp [hc, UsePcResponse.isOk]
  · simp [hc, UsePcResponse.isOk]

/-- C6 (amended): `setPosition` with an agent index below the agent count
(including any negative index) preserves the roster's length — a negative
index leaves the roster entirely untouched — while an index at or past the
end grows the roster to `index + 1` slots; `setActiveAgent` and
`activateBridges` never change the roster. -/
theorem C6_roster_length (s : GameState) (p : Position) (i : Int) :
    (i < s.getAgentCount →
      (s.setPosition p (some i)).agents.length = s.agents.length) ∧
    (i < 0 → (s.setPosition p (some i)).agents = s.agents) ∧
    (s.getAgentCount ≤ i →
      (s.setPosition p (some i)).agents.length = i.toNat + 1) ∧
    (s.setActiveAgent i).agents = s.agents ∧
    (s.activateBridges).agents = s.agents := by
  unfold GameState.setPosition GameState.setActiveAgent GameState.activateBridges
    GameState.getAgentCount jsArraySet
  dsimp only
  refine ⟨fun hlt => ?_, fun hneg => ?_, fun hge => ?_, ?_, rfl⟩
  · by_cases hneg : i < 0
    · simp [hneg]
    · have hti : i.toNat < s.agents.length := by omega
      simp [hneg, hti]
  · simp [hneg]
  · have h0 : ¬ i < 0 := by omega
    have hti : ¬ i.toNat < s.agents.length := by omega
    simp only [h0, hti, if_false, Option.getD_some]
    simp [List.length_append, List.length_replicate]
    omega
  · split <;> rfl

/-- C6 witness: on the one-agent `stateCorridor`, index 0 is in range so a
`setPosition` there keeps length 1, index -1 leaves the roster untouched,
and index 2 grows the roster to 3 slots. -/
theorem C6_roster_length_witness :
    ((0 : Int) < stateCorridor.getAgentCount ∧
      (stateCorridor.setPosition ⟨2, 1⟩ (some 0)).agents.length =
        stateCorridor.agents.length) ∧
    ((-1 : Int) < 0 ∧
      (stateCorridor.setPosition ⟨2, 1⟩ (some (-1))).agents = stateCorridor.agents) ∧
    (stateCorridor.getAgentCount ≤ (2 : Int) ∧
      (stateCorridor.setPosition ⟨2, 1⟩ (some 2)).agents.length = (2 : Int).toNat + 1) :=
  ⟨⟨by decide, (C6_roster_length stateCorridor ⟨2, 1⟩ 0).1 (by decide)⟩,
    ⟨by decide, (C6_roster_length stateCorridor ⟨2, 1⟩ (-1)).2.1 (by decide)⟩,
    ⟨by decide, (C6_roster_length stateCorridor ⟨2, 1⟩ 2).2.2.1 (by decide)⟩⟩

/-- C8: every multi-move request failing input validation — `steps`
outside [1,10], a direction not among the four known ones (including the
empty string), or an `agentIndex` outside roster bounds — yields an error
response, leaves the store untouched and broadcasts nothing. -/
theorem C8_validation_rejects_without_mutation (s : GameState)
    (direction : String) (steps agentIndex : Int)
    (h : steps < 1 ∨ 10 < steps ∨ directionMap direction = none ∨
      agentIndex < 0 ∨ s.getAgentCount ≤ agentIndex) :
    (POST_move s direction steps agentIndex).1.isError = true ∧
    (POST_move s direction steps agentIndex).2.1 = s ∧
    (POST_move s direction steps agentIndex).2.2 = [] := by
  unfold POST_move
  dsimp only
  split
  · exact ⟨rfl, rfl, rfl⟩
  · split
    · exact ⟨rfl, rfl, rfl⟩
    · rename_i hg1 hg2
      split
      · exact ⟨rfl, rfl, rfl⟩
      · rename_i delta hd
        exfalso
        push_neg at hg1 hg2
        rcases h with h | h | h | h | h
        · exact absurd h (by omega)
        · exact absurd h (by omega)
        · rw [hd] at h
          exact Option.noConfusion h
        · exact absurd h (by omega)
        · exact absurd h (by omega)

/-- C8 witness: `steps = 0` on `stateCorridor` is rejected with an error,
no state change and no broadcast. -/
theorem C8_validation_witness :
    ((0 : Int) < 1 ∨ 10 < (0 : Int) ∨ directionMap ("up") = none ∨
      (0 : Int) < 0 ∨ stateCorridor.getAgentCount ≤ 0) ∧
    ((POST_move stateCorridor ("up") 0 0).1.isError = true ∧
      (POST_move stateCorridor ("up") 0 0).2.1 = stateCorridor ∧
      (POST_move stateCorridor ("up") 0 0).2.2 = []) :=
  ⟨Or.inl (by decide),
    C8_validation_rejects_without_mutation stateCorridor ("up") 0 0 (Or.inl (by decide))⟩

/-- Membership in a conditional singleton. -/
theorem mem_if_singleton {α : Type} (c : Prop) [Decidable c] (a b : α) :
    (a ∈ if c then [b] else []) ↔ (c ∧ a = b) := by
  split <;> simp_all

/-- C5 (amended): a horizontal `multi_move` action is offered exactly when
the RAW tile diagonally below in that direction is the platform `'#'` —
not exactly when the Movement Validator would allow the one-step move
(the two disagree, e.g. over ladder-supported or wall targets). -/
theorem C5_horizontal_actions (s : GameState) :
    (ActionType.multiMoveLeft ∈ s.getAvailableActions ↔
      s.getTileAt ((s.getPosition none).x - 1) ((s.getPosition none).y + 1) = '#') ∧
    (ActionType.multiMoveRight ∈ s.getAvailableActions ↔
      s.getTileAt ((s.getPosition none).x + 1) ((s.getPosition none).y + 1) = '#') := by
  unfold GameState.getAvailableActions
  dsimp only
  constructor <;> simp [mem_if_singleton]

/-- C2 (amended): the Movement Validator returns the rejection
"Invalid movement direction" exactly for a genuinely diagonal offset — both
coordinates differ — whose target is in bounds and not a wall/raised
bridge.  Axis-aligned offsets, including zero-length and multi-cell ones,
are handled by the horizontal/vertical branches (and may even be allowed);
out-of-bounds or blocked targets get those rejections instead. -/
theorem C2_invalid_direction_characterisation (s : GameState) (toPos : Position) :
    s.canMoveToPosition toPos = ⟨false, some ("Invalid movement direction")⟩ ↔
      (¬(toPos.x < 0 ∨ s.currentLevel.width ≤ toPos.x ∨ toPos.y < 0 ∨
          s.currentLevel.height ≤ toPos.y) ∧
        s.getEffectiveTileAt toPos.x toPos.y ≠ '#' ∧
        s.getEffectiveTileAt toPos.x toPos.y ≠ 'Z' ∧
        (s.getPosition none).x ≠ toPos.x ∧ (s.getPosition none).y ≠ toPos.y) := by
  unfold GameState.canMoveToPosition
  dsimp only
  split_ifs <;> simp_all +decide <;> first
  | tauto
  | omega

/-- C4 (amended): the broadcast snapshot's `map` field is the RAW stored
layout rows, not the bridge-adjusted effective rows; the two coincide (for
a well-formed layout) when the puzzle flag is still false. -/
theorem C4_snapshot_map_is_raw_layout (s : GameState) :
    (broadcastSnapshot s).map = s.currentLevel.layout ∧
    (s.currentLevel.wellFormed → s.bridgesActivated = false →
      specEffectiveLayoutRows s = s.currentLevel.layout) := by
  refine ⟨rfl, fun hwf hflag => ?_⟩
  unfold specEffectiveLayoutRows
  apply List.ext_getElem
  · simp
  · intro y hy1 hy2
    simp only [List.getElem_map, List.getElem_range]
    have hrow : s.currentLevel.layout.getD y [] = s.currentLevel.layout[y] := by
      simp [List.getD_eq_getElem?_getD, List.getElem?_eq_getElem hy2]
    rw [hrow]
    apply List.ext_getElem
    · simp
    · intro x hx1 hx2
      simp only [List.getElem_map, List.getElem_range]
      have hw := hwf.2 _ (List.getElem_mem hy2)
      have hh := hwf.1
      have hcond : ¬((x : Int) < 0 ∨ s.currentLevel.width ≤ (x : Int) ∨
          (y : Int) < 0 ∨ s.currentLevel.height ≤ (y : Int)) := by
        omega
      unfold GameState.getEffectiveTileAt GameState.getTileAt
      dsimp only
      rw [if_neg hcond]
      simp only [hflag, Bool.false_eq_true, false_and, if_false]
      rw [Int.toNat_natCast, Int.toNat_natCast, hrow]
      simp [List.getD_eq_getElem?_getD, List.getElem?_eq_getElem hx2]

/-- C4 witness: on `stateCorridor` the layout is well-formed and the flag
is false, so the snapshot map, the raw layout and the effective rows all
agree. -/
theorem C4_snapshot_map_witness :
    (broadcastSnapshot stateCorridor).map = stateCorridor.currentLevel.layout ∧
    (stateCorridor.currentLevel.wellFormed ∧
      stateCorridor.bridgesActivated = false ∧
      specEffectiveLayoutRows stateCorridor = stateCorridor.currentLevel.layout) :=
  ⟨(C4_snapshot_map_is_raw_layout stateCorridor).1,
    by decide,
    rfl,
    (C4_snapshot_map_is_raw_layout stateCorridor).2 (by decide) rfl⟩

/-- A direction that resolves in `directionMap` is not the empty string. -/
theorem directionMap_ne_empty {direction : String} {d : Position}
    (h : directionMap direction = some d) : direction ≠ ("" : String) := by
  intro he
  rw [he] at h
  simp [directionMap] at h

/-- C7 (amended): when the first two steps of a batch are legal, neither
lands on the terminal `'C'`, and the third step is illegal, `multiMove`
with `steps = 5` returns exactly 3 step results — two successes followed by
one failure carrying the rejection reason and the unchanged position — with
`final_position` the position after the 2nd step and the two committed
steps still committed in the returned store (one broadcast per committed
step, no rollback). -/
theorem C7_no_rollback (s s1 s2 : GameState) (direction : String)
    (d p0 p1 p2 p3 : Position) (agentIndex : Int)
    (hdir : directionMap direction = some d)
    (hb0 : 0 ≤ agentIndex) (hb1 : agentIndex < s.getAgentCount)
    (hp0 : p0 = s.getPosition (some agentIndex))
    (hp1 : p1 = ⟨p0.x + d.x, p0.y + d.y⟩)
    (hp2 : p2 = ⟨p1.x + d.x, p1.y + d.y⟩)
    (hp3 : p3 = ⟨p2.x + d.x, p2.y + d.y⟩)
    (hs1 : s1 = s.setPosition p1 (some agentIndex))
    (hs2 : s2 = s1.setPosition p2 (some agentIndex))
    (h1 : (s.canMoveToPosition p1).canMove = true)
    (hC1 : ¬ s1.getEffectiveTileAt p1.x p1.y = 'C')
    (h2 : (s1.canMoveToPosition p2).canMove = true)
    (hC2 : ¬ s2.getEffectiveTileAt p2.x p2.y = 'C')
    (h3 : (s2.canMoveToPosition p3).canMove = false) :
    POST_move s direction 5 agentIndex =
      (MoveResponse.ok
        [⟨true, s1.getAvailableActions, none, p1, some false⟩,
         ⟨true, s2.getAvailableActions, none, p2, some false⟩,
         ⟨false, s2.getAvailableActions, (s2.canMoveToPosition p3).reason, p2, none⟩]
        p2 false,
      s2, [broadcastSnapshot s1, broadcastSnapshot s2]) := by
  subst hp1 hp2 hp3 hs1 hs2 hp0
  have hne := directionMap_ne_empty hdir
  unfold POST_move
  rw [if_neg (by simp [hne]), if_neg (by omega), hdir]
  dsimp only
  have h5 : (5 : Int).toNat = 4 + 1 := rfl
  rw [h5]
  rw [multiMoveLoop.eq_def]
  dsimp only
  rw [if_pos h1, if_neg hC1]
  have h4 : (4 : Nat) = 3 + 1 := rfl
  rw [h4, multiMoveLoop]
  dsimp only
  rw [if_pos h2, if_neg hC2]
  have h3n : (3 : Nat) = 2 + 1 := rfl
  rw [h3n, multiMoveLoop]
  dsimp only
  rw [if_neg (by simp [h3])]

/-- C7 witness: on `stateWallAfterTwo` (agent at (1,1), wall at (4,1)),
two right steps are legal, the third is not, and the `steps = 5` batch
returns the 2-success / 1-failure pattern with the two commits kept. -/
theorem C7_no_rollback_witness :
    (stateWallAfterTwo.canMoveToPosition ⟨2, 1⟩).canMove = true ∧
    (((stateWallAfterTwo.setPosition ⟨2, 1⟩ (some 0)).setPosition ⟨3, 1⟩
        (some 0)).canMoveToPosition ⟨4, 1⟩).canMove = false ∧
    (POST_move stateWallAfterTwo ("right") 5 0).1.stepsOf.map
        (fun st => (st.result, st.position, st.reason)) =
      [(true, ⟨2, 1⟩, none), (true, ⟨3, 1⟩, none),
       (false, ⟨3, 1⟩, some ("Cannot move through wall/raised bridge"))] ∧
    (POST_move stateWallAfterTwo ("right") 5 0).2.1.getPosition (some 0) = ⟨3, 1⟩ := by
  refine ⟨by decide, by decide, ?_, ?_⟩ <;>
  · rw [C7_no_rollback stateWallAfterTwo _ _ ("right") ⟨1, 0⟩ ⟨1, 1⟩ ⟨2, 1⟩ ⟨3, 1⟩
      ⟨4, 1⟩ 0 (by decide) (by decide) (by decide) (by decide) (by decide)
      (by decide) (by decide) rfl rfl (by decide) (by decide) (by decide)
      (by decide) (by decide)]
    decide

/-- C2 witness: at `stateCorridor` the diagonal target (2,0) (agent at
(1,1)) satisfies the characterisation, so the validator answers
"Invalid movement direction" there. -/
theorem C2_invalid_direction_witness :
    stateCorridor.canMoveToPosition ⟨2, 0⟩ =
      ⟨false, some ("Invalid movement direction")⟩ :=
  (C2_invalid_direction_characterisation stateCorridor ⟨2, 0⟩).mpr (by decide)

/-- C5 witness: at `stateCorridor` the tile below-left of the agent is the
platform `'#'`, so `multi_move[left]` is offered. -/
theorem C5_horizontal_actions_witness :
    ActionType.multiMoveLeft ∈ stateCorridor.getAvailableActions :=
  (C5_horizontal_actions stateCorridor).1.mpr (by decide)

/-- C10 witness: with the agent placed at (1,1) next to the terminal at
(2,1), the use-pc handler reports success and returns the store
unchanged. -/
theorem C10_use_pc_witness :
    (POST_usePC (stateTerminalAfterTwo.setPosition ⟨1, 1⟩ (some 0))).1.isOk = true ∧
    (POST_usePC (stateTerminalAfterTwo.setPosition ⟨1, 1⟩ (some 0))).2.1 =
      stateTerminalAfterTwo.setPosition ⟨1, 1⟩ (some 0) :=
  ⟨(C10_use_pc_frame (stateTerminalAfterTwo.setPosition ⟨1, 1⟩ (some 0))).1.mpr
      (by decide),
    (C10_use_pc_frame (stateTerminalAfterTwo.setPosition ⟨1, 1⟩ (some 0))).2.1⟩
